import Mathlib

/-!
A shallow embedding of the `drawio-builder` tool (`src/main.rs`, `src/drawio.rs`)
and proofs about its job-planning, layer-plan resolution, process-wait
verification, progress accounting, configuration parsing and draft-mode
flag rewriting.

Paths are modelled as strings, file modification times as natural numbers,
captured process output bytes as lists of naturals, and the filesystem visible
to a planning or verification step as a function from path to optional
modification time (`none` = the file does not exist / its metadata is
unreadable).
-/

namespace DrawioBuilder

/-- Rust's `Vec::join(",")` on a list of strings: the elements comma-joined. -/
def commaJoin : List String → String
  | [] => ""
  | [x] => x
  | x :: y :: ys => x ++ "," ++ commaJoin (y :: ys)

/-- `LayerConfig` from `src/main.rs` (also `src/drawio.rs`). -/
inductive LayerConfig where
  /-- Number of layers. Exports [0],[0,1],[0,1,2]... -/
  | Incremental (layer_count : Nat)
  /-- For each export step, the layers and their order. -/
  | Custom (v : List (List Nat))

/-- The loop body of the `Incremental` branch of `assemble_layer_cli_flag`
(`src/main.rs` lines 122-129): `buf` accumulates `",{layer}"` per iteration and
each intermediate value of `buf` is pushed onto `result`. -/
def incrLoop : String → List String → List Nat → List String
  | _, result, [] => result
  | buf, result, layer :: layers =>
      incrLoop (buf ++ "," ++ toString layer)
        (result ++ [buf ++ "," ++ toString layer]) layers

/-- `assemble_layer_cli_flag` from `src/main.rs` lines 119-136. The Rust loop
`for layer in 1..layer_count` is the list `List.range' 1 (layer_count - 1)`. -/
def assemble_layer_cli_flag : LayerConfig → List String
  | .Incremental layer_count =>
      incrLoop "0" ["0"] (List.range' 1 (layer_count - 1))
  | .Custom v =>
      v.map (fun inner => commaJoin (inner.map (fun num => toString num)))

/-- The selector the spec asks for at step `k` (0-indexed): the comma-joined
indices `0` through `k` inclusive. -/
def specSelector (k : Nat) : String :=
  commaJoin ((List.range (k + 1)).map (fun i => toString i))

theorem commaJoin_append_singleton (x : String) :
    ∀ (l : List String), l ≠ [] →
      commaJoin (l ++ [x]) = commaJoin l ++ "," ++ x
  | [], h => absurd rfl h
  | [y], _ => rfl
  | y :: z :: zs, _ => by
      have ih := commaJoin_append_singleton x (z :: zs) (by simp)
      show y ++ "," ++ commaJoin ((z :: zs) ++ [x]) =
        y ++ "," ++ commaJoin (z :: zs) ++ "," ++ x
      rw [ih, ← String.append_assoc, ← String.append_assoc]

theorem specSelector_succ (k : Nat) :
    specSelector (k + 1) = specSelector k ++ "," ++ toString (k + 1) := by
  unfold specSelector
  rw [List.range_succ, List.map_append]
  exact commaJoin_append_singleton _ _ (by simp [List.range_eq_nil])

theorem specSelector_zero : specSelector 0 = "0" := rfl

theorem incrLoop_spec (m : Nat) :
    ∀ (j : Nat) (acc : List String),
      incrLoop (specSelector j) acc (List.range' (j + 1) m) =
        acc ++ (List.range' (j + 1) m).map specSelector := by
  induction m with
  | zero => intro j acc; simp [incrLoop]
  | succ n ih =>
      intro j acc
      rw [List.range'_succ]
      show incrLoop (specSelector j ++ "," ++ toString (j + 1))
          (acc ++ [specSelector j ++ "," ++ toString (j + 1)])
          (List.range' (j + 1 + 1) n) = _
      rw [← specSelector_succ j, ih (j + 1)]
      simp

theorem assemble_incremental_eq_map (n : Nat) (h : 1 ≤ n) :
    assemble_layer_cli_flag (.Incremental n) =
      (List.range n).map specSelector := by
  show incrLoop "0" ["0"] (List.range' 1 (n - 1)) = _
  have h0 : ("0" : String) = specSelector 0 := rfl
  rw [h0, incrLoop_spec (n - 1) 0 [specSelector 0]]
  obtain ⟨m, rfl⟩ : ∃ m, n = m + 1 := ⟨n - 1, (Nat.succ_pred_eq_of_pos h).symm⟩
  rw [List.range_eq_range', List.range'_succ]
  simp

/-- One export job as assembled by `run_command` (`src/main.rs` lines 146-193):
the derived output path, the input path passed as the final argument, the
output's prior modification time when it existed (`old_modified_time`), and
the full argument list handed to the spawned process. -/
structure Job where
  output_path : String
  input_path : String
  old_modified_time : Option Nat
  args : List String
deriving DecidableEq, Repr

/-- `Path::new(out_dir).join(format!("{}-{}.png", file_name, idx))` from
`src/main.rs` line 150. -/
def outputPathFor (out_dir file_name : String) (idx : Nat) : String :=
  out_dir ++ "/" ++ file_name ++ "-" ++ toString idx ++ ".png"

/-- The body of the planning loop of `run_command` (`src/main.rs` lines
146-193) for step index `idx` with selector `step`: `none` when the step is
skipped (`continue`) because the output exists and is at least as new as the
input, otherwise the job that is spawned. `fs` maps a path to its modification
time when the file exists. -/
def planStep (flags : List String) (file_name full_file_path out_dir : String)
    (fs : String → Option Nat) (in_modified : Nat) (idx : Nat) (step : String) :
    Option Job :=
  let output_path := outputPathFor out_dir file_name idx
  match fs output_path with
  | some out_modified =>
      if in_modified ≤ out_modified then none
      else some { output_path := output_path, input_path := full_file_path,
                  old_modified_time := some out_modified,
                  args := flags ++ ["-o", output_path, "--layers", step, full_file_path] }
  | none =>
      some { output_path := output_path, input_path := full_file_path,
             old_modified_time := none,
             args := flags ++ ["-o", output_path, "--layers", step, full_file_path] }

/-- The planning loop of `run_command` over `export_steps.iter().enumerate()`
(`src/main.rs` lines 146-193): the jobs actually spawned, in order. -/
def planJobs (flags : List String) (file_name full_file_path out_dir : String)
    (steps : List String) (fs : String → Option Nat) (in_modified : Nat) :
    List Job :=
  steps.enum.filterMap
    (fun p => planStep flags file_name full_file_path out_dir fs in_modified p.1 p.2)

/-- `task_count` from `src/main.rs` line 348: the sum of the per-file layer
counts over all discovered files `(path, layer_count)`. -/
def task_count (drawio_files : List (String × Nat)) : Nat :=
  (drawio_files.map (fun f => f.2)).sum

/-- C7: for all n ≥ 1, resolving an Incremental layer plan for n layers
produces exactly n selector strings, the k-th (0-indexed) equal to the
comma-joined indices 0 through k inclusive. -/
theorem incremental_plan_resolution (n : Nat) (h : 1 ≤ n) :
    (assemble_layer_cli_flag (.Incremental n)).length = n ∧
    ∀ k, k < n →
      (assemble_layer_cli_flag (.Incremental n))[k]? =
        some (commaJoin ((List.range (k + 1)).map (fun i => toString i))) := by
  rw [assemble_incremental_eq_map n h]
  refine ⟨by simp, fun k hk => ?_⟩
  rw [List.getElem?_map, List.getElem?_range hk]
  rfl

/-- Witness for C7 at n = 3. -/
theorem incremental_plan_resolution_witness :
    (assemble_layer_cli_flag (.Incremental 3)).length = 3 ∧
    (assemble_layer_cli_flag (.Incremental 3))[2]? =
      some (commaJoin ((List.range 3).map (fun i => toString i))) :=
  ⟨(incremental_plan_resolution 3 (by decide)).1,
   (incremental_plan_resolution 3 (by decide)).2 2 (by decide)⟩

/-- C6: a step whose output exists with modification time ≥ the input's is
silently skipped at planning time (no job is emitted for it, and the jobs list
contains exactly the jobs of un-skipped steps); every other step emits a job
carrying the output's prior modification time when the output existed, else
`none`. -/
theorem plan_skips_fresh_outputs (flags : List String)
    (file_name full_file_path out_dir : String) (steps : List String)
    (fs : String → Option Nat) (in_modified : Nat) :
    (∀ j, j ∈ planJobs flags file_name full_file_path out_dir steps fs in_modified ↔
       ∃ idx step, steps[idx]? = some step ∧
         planStep flags file_name full_file_path out_dir fs in_modified idx step = some j) ∧
    (∀ idx step m, fs (outputPathFor out_dir file_name idx) = some m →
       in_modified ≤ m →
       planStep flags file_name full_file_path out_dir fs in_modified idx step = none) ∧
    (∀ idx step m, fs (outputPathFor out_dir file_name idx) = some m →
       m < in_modified →
       planStep flags file_name full_file_path out_dir fs in_modified idx step =
         some { output_path := outputPathFor out_dir file_name idx,
                input_path := full_file_path, old_modified_time := some m,
                args := flags ++ ["-o", outputPathFor out_dir file_name idx,
                                  "--layers", step, full_file_path] }) ∧
    (∀ idx step, fs (outputPathFor out_dir file_name idx) = none →
       planStep flags file_name full_file_path out_dir fs in_modified idx step =
         some { output_path := outputPathFor out_dir file_name idx,
                input_path := full_file_path, old_modified_time := none,
                args := flags ++ ["-o", outputPathFor out_dir file_name idx,
                                  "--layers", step, full_file_path] }) := by
  refine ⟨fun j => ?_, fun idx step m hfs hle => ?_, fun idx step m hfs hlt => ?_,
    fun idx step hfs => ?_⟩
  · simp only [planJobs, List.mem_filterMap]
    constructor
    · rintro ⟨⟨idx, step⟩, hmem, hps⟩
      exact ⟨idx, step, List.mem_enum_iff_getElem?.mp hmem, hps⟩
    · rintro ⟨idx, step, hget, hps⟩
      exact ⟨(idx, step), List.mem_enum_iff_getElem?.mpr hget, hps⟩
  · simp [planStep, hfs, hle]
  · simp only [planStep, hfs]
    rw [if_neg (by omega)]
  · simp [planStep, hfs]

/-- Witness for C6: a fresh output is skipped; an absent output yields a job
with no prior modification time. -/
theorem plan_skips_fresh_outputs_witness :
    planStep [] "a" "in/a.drawio" "out" (fun _ => some 10) 5 0 "0" = none ∧
    planStep [] "a" "in/a.drawio" "out" (fun _ => none) 5 0 "0" =
      some { output_path := outputPathFor "out" "a" 0,
             input_path := "in/a.drawio", old_modified_time := none,
             args := [] ++ ["-o", outputPathFor "out" "a" 0,
                            "--layers", "0", "in/a.drawio"] } :=
  ⟨(plan_skips_fresh_outputs [] "a" "in/a.drawio" "out" ["0"]
      (fun _ => some 10) 5).2.1 0 "0" 10 rfl (by decide),
   (plan_skips_fresh_outputs [] "a" "in/a.drawio" "out" ["0"]
      (fun _ => none) 5).2.2.2 0 "0" rfl⟩

/-- C8: every emitted job's argument list is, in order, the global flags, then
`-o` and the derived output path `<out_dir>/<stem>-<idx>.png`, then `--layers`
and the selector for that step, and finally the input file's path as the last
argument. -/
theorem job_args_order (flags : List String) (file_name full_file_path out_dir : String)
    (cfg : LayerConfig) (fs : String → Option Nat) (in_modified : Nat) (j : Job)
    (hj : j ∈ planJobs flags file_name full_file_path out_dir
            (assemble_layer_cli_flag cfg) fs in_modified) :
    ∃ (idx : Nat) (step : String), (assemble_layer_cli_flag cfg)[idx]? = some step ∧
      j.output_path = out_dir ++ "/" ++ file_name ++ "-" ++ toString idx ++ ".png" ∧
      j.args = flags ++ ["-o", j.output_path, "--layers", step, full_file_path] := by
  obtain ⟨⟨idx, step⟩, hmem, hps⟩ := List.mem_filterMap.mp hj
  refine ⟨idx, step, List.mem_enum_iff_getElem?.mp hmem, ?_⟩
  simp only [planStep] at hps
  cases hfs : fs (outputPathFor out_dir file_name idx) with
  | none =>
      rw [hfs] at hps
      cases hps
      exact ⟨rfl, rfl⟩
  | some m =>
      rw [hfs] at hps
      dsimp only at hps
      by_cases hle : in_modified ≤ m
      · rw [if_pos hle] at hps
        cases hps
      · rw [if_neg hle] at hps
        cases hps
        exact ⟨rfl, rfl⟩

/-- A concrete job, as emitted by the planner for the single-step Incremental
plan of file `a` with flags `["-x"]` and an absent output. -/
def sampleJob : Job :=
  { output_path := "out/a-0.png", input_path := "in/a.drawio",
    old_modified_time := none,
    args := ["-x", "-o", "out/a-0.png", "--layers", "0", "in/a.drawio"] }

/-- Witness for C8 on a single-step Incremental plan with an absent output. -/
theorem job_args_order_witness :
    ∃ (idx : Nat) (step : String),
      (assemble_layer_cli_flag (.Incremental 1))[idx]? = some step ∧
      sampleJob.output_path = "out" ++ "/" ++ "a" ++ "-" ++ toString idx ++ ".png" ∧
      sampleJob.args =
        ["-x"] ++ ["-o", sampleJob.output_path, "--layers", step, "in/a.drawio"] :=
  job_args_order ["-x"] "a" "in/a.drawio" "out" (.Incremental 1)
    (fun _ => none) 0 sampleJob (by decide)

/-- The `std::process::Output` of `wait_with_output`: the exit status (an
integer code; `success()` holds iff it is zero) and the captured stdout and
stderr byte streams. -/
structure ProcOutput where
  status : Int
  stdout : List Nat
  stderr : List Nat
deriving DecidableEq, Repr

/-- `DrawioError` from `src/main.rs` lines 16-26 / `src/drawio.rs` lines
23-32. `exit_code` is `none` when the run failed before the program
terminated (per the field's doc comment). -/
structure DrawioError where
  message : String
  input_path : String
  output_path : String
  stderr : List Nat
  stdout : List Nat
  exit_code : Option Int
deriving DecidableEq, Repr

/-- `DrawioProcess` from `src/drawio.rs` lines 74-79 / `src/main.rs` lines
96-101, minus the live child handle (the handle's observable behaviour is
passed to `wait` explicitly). -/
structure DrawioProcess where
  output_path : String
  input_path : String
  old_modified_time : Option Nat
deriving DecidableEq, Repr

/-- Result of waiting on one export process: success, a `DrawioError`
failure, or a Rust panic (an `unwrap` on `None`/`Err`). -/
inductive WaitOutcome where
  | ok
  | fail (e : DrawioError)
  | panic
deriving DecidableEq, Repr

/-- `DrawioProcess::wait` from `src/drawio.rs` lines 82-119 (the identical
logic is inlined in `run_command`, `src/main.rs` lines 195-238).
`waitRes` is the result of `wait_with_output` (`none` = OS error),
`postModified` the output file's modification time as read after the run
(`none` = the `metadata().unwrap().modified().unwrap()` chain fails), and
`postExists` the result of `output_path.exists()` after the run. -/
def DrawioProcess.wait (p : DrawioProcess) (waitRes : Option ProcOutput)
    (postModified : Option Nat) (postExists : Bool) : WaitOutcome :=
  match waitRes with
  | none =>
      .fail { message := "process termination error",
              input_path := p.input_path, output_path := p.output_path,
              stderr := [], stdout := [], exit_code := none }
  | some output =>
      let error_template : DrawioError :=
        { message := "generic error",
          input_path := p.input_path, output_path := p.output_path,
          stderr := output.stderr, stdout := output.stdout, exit_code := none }
      if output.status ≠ 0 then
        .fail { error_template with message := "error exit code" }
      else
        match p.old_modified_time with
        | some old_modified_time =>
            match postModified with
            | none => .panic
            | some new_modified_time =>
                if new_modified_time ≤ old_modified_time then
                  .fail { error_template with message := "output file was not updated" }
                else .ok
        | none =>
            if !postExists then
              .fail { error_template with message := "output file was not created" }
            else .ok

/-- C1: on zero exit, if the output existed before and its post-run
modification time is not strictly greater than the recorded prior one, `wait`
fails with reason "output file was not updated"; if the output did not
previously exist and still does not exist, `wait` fails with reason
"output file was not created"; both failures carry the captured stdout and
stderr (and are not success). -/
theorem wait_zero_exit_staleness (p : DrawioProcess) (output : ProcOutput)
    (postModified : Option Nat) (postExists : Bool) (h0 : output.status = 0) :
    (∀ oldT newT, p.old_modified_time = some oldT → postModified = some newT →
       newT ≤ oldT →
       p.wait (some output) postModified postExists =
         .fail { message := "output file was not updated",
                 input_path := p.input_path, output_path := p.output_path,
                 stderr := output.stderr, stdout := output.stdout,
                 exit_code := none }) ∧
    (p.old_modified_time = none → postExists = false →
       p.wait (some output) postModified postExists =
         .fail { message := "output file was not created",
                 input_path := p.input_path, output_path := p.output_path,
                 stderr := output.stderr, stdout := output.stdout,
                 exit_code := none }) := by
  constructor
  · intro oldT newT hold hpost hle
    simp [DrawioProcess.wait, h0, hold, hpost, hle]
  · intro hold hex
    simp [DrawioProcess.wait, h0, hold, hex]

/-- Witness for C1: both staleness failures at concrete inputs. -/
theorem wait_zero_exit_staleness_witness :
    DrawioProcess.wait
        { output_path := "out/a-0.png", input_path := "in/a.drawio",
          old_modified_time := some 7 }
        (some { status := 0, stdout := [104], stderr := [101] }) (some 7) true =
      .fail { message := "output file was not updated",
              input_path := "in/a.drawio", output_path := "out/a-0.png",
              stderr := [101], stdout := [104], exit_code := none } ∧
    DrawioProcess.wait
        { output_path := "out/a-0.png", input_path := "in/a.drawio",
          old_modified_time := none }
        (some { status := 0, stdout := [104], stderr := [101] }) none false =
      .fail { message := "output file was not created",
              input_path := "in/a.drawio", output_path := "out/a-0.png",
              stderr := [101], stdout := [104], exit_code := none } :=
  ⟨(wait_zero_exit_staleness
      { output_path := "out/a-0.png", input_path := "in/a.drawio",
        old_modified_time := some 7 }
      { status := 0, stdout := [104], stderr := [101] } (some 7) true rfl).1
      7 7 rfl rfl (by decide),
   (wait_zero_exit_staleness
      { output_path := "out/a-0.png", input_path := "in/a.drawio",
        old_modified_time := none }
      { status := 0, stdout := [104], stderr := [101] } none false rfl).2
      rfl rfl⟩

/-- C2: on non-zero exit, `wait` fails immediately with reason
"error exit code", carrying the captured stdout and stderr; the result does
not depend on the output file's post-run state (`postModified`,
`postExists`). -/
theorem wait_nonzero_exit (p : DrawioProcess) (output : ProcOutput)
    (postModified : Option Nat) (postExists : Bool) (h : output.status ≠ 0) :
    p.wait (some output) postModified postExists =
      .fail { message := "error exit code",
              input_path := p.input_path, output_path := p.output_path,
              stderr := output.stderr, stdout := output.stdout,
              exit_code := none } := by
  simp [DrawioProcess.wait, h]

/-- Witness for C2 at exit status 42, with the output file present and
updated (its state is not consulted). -/
theorem wait_nonzero_exit_witness :
    DrawioProcess.wait
        { output_path := "out/a-0.png", input_path := "in/a.drawio",
          old_modified_time := some 7 }
        (some { status := 42, stdout := [104], stderr := [101] }) (some 9) true =
      .fail { message := "error exit code",
              input_path := "in/a.drawio", output_path := "out/a-0.png",
              stderr := [101], stdout := [104], exit_code := none } :=
  wait_nonzero_exit
    { output_path := "out/a-0.png", input_path := "in/a.drawio",
      old_modified_time := some 7 }
    { status := 42, stdout := [104], stderr := [101] } (some 9) true (by decide)

/-- C4 (code bug): a failure produced after the process terminated with
non-zero status 3 carries `exit_code = none`, not the obtained status — the
code builds every `DrawioError` with `exit_code: None`, contradicting the
field's own doc comment ("If None we failed before terminating the program")
and the claim; the same holds for the staleness failure after a zero exit. -/
theorem wait_failure_exit_code_always_none :
    DrawioProcess.wait
        { output_path := "out/a-0.png", input_path := "in/a.drawio",
          old_modified_time := none }
        (some { status := 3, stdout := [104], stderr := [101] }) none true =
      .fail { message := "error exit code",
              input_path := "in/a.drawio", output_path := "out/a-0.png",
              stderr := [101], stdout := [104], exit_code := none } ∧
    DrawioProcess.wait
        { output_path := "out/a-0.png", input_path := "in/a.drawio",
          old_modified_time := some 7 }
        (some { status := 0, stdout := [104], stderr := [101] }) (some 7) true =
      .fail { message := "output file was not updated",
              input_path := "in/a.drawio", output_path := "out/a-0.png",
              stderr := [101], stdout := [104], exit_code := none } :=
  ⟨rfl, rfl⟩

/-- C10: for a rebuild job (recorded prior modification time) whose process
exited zero, an absent/unreadable post-run output metadata makes `wait` panic
(the `unwrap` chain) instead of returning a failure outcome. -/
theorem wait_rebuild_metadata_unwrap_panics (p : DrawioProcess)
    (output : ProcOutput) (postExists : Bool) (oldT : Nat)
    (hold : p.old_modified_time = some oldT) (h0 : output.status = 0) :
    p.wait (some output) none postExists = .panic := by
  simp [DrawioProcess.wait, h0, hold]

/-- Witness for C10 at a concrete rebuild job. -/
theorem wait_rebuild_metadata_unwrap_panics_witness :
    DrawioProcess.wait
        { output_path := "out/a-0.png", input_path := "in/a.drawio",
          old_modified_time := some 7 }
        (some { status := 0, stdout := [], stderr := [] }) none false = .panic :=
  wait_rebuild_metadata_unwrap_panics
    { output_path := "out/a-0.png", input_path := "in/a.drawio",
      old_modified_time := some 7 }
    { status := 0, stdout := [], stderr := [] } false 7 rfl rfl

/-- Result of the wait loop of `run_command`: success, the first error
(returned early), or a Rust panic. -/
inductive LoopResult where
  | ok
  | err (e : DrawioError)
  | panic
deriving DecidableEq, Repr

/-- One spawned handle together with the observable behaviour of waiting on
it: the `wait_with_output` result, and the output file's post-run
modification time and existence. -/
structure HandleRun where
  proc : DrawioProcess
  waitRes : Option ProcOutput
  postModified : Option Nat
  postExists : Bool
deriving DecidableEq, Repr

/-- The wait loop of `run_command` (`src/main.rs` lines 195-238): first
component is the number of `progress.inc(1)` calls performed. A
`wait_with_output` failure returns early before the increment; every other
path increments once per waited handle, before the exit-status and staleness
checks, and the loop returns at the first error. -/
def waitLoop : List HandleRun → Nat × LoopResult
  | [] => (0, .ok)
  | h :: rest =>
      match h.waitRes with
      | none =>
          (0, .err { message := "process termination error",
                     input_path := h.proc.input_path,
                     output_path := h.proc.output_path,
                     stderr := [], stdout := [], exit_code := none })
      | some output =>
          let error_template : DrawioError :=
            { message := "generic error", input_path := h.proc.input_path,
              output_path := h.proc.output_path, stderr := output.stderr,
              stdout := output.stdout, exit_code := none }
          if output.status ≠ 0 then
            (1, .err { error_template with message := "error exit code" })
          else
            match h.proc.old_modified_time with
            | some old_modified_time =>
                match h.postModified with
                | none => (1, .panic)
                | some new_modified_time =>
                    if new_modified_time ≤ old_modified_time then
                      (1, .err { error_template with
                                   message := "output file was not updated" })
                    else
                      (1 + (waitLoop rest).1, (waitLoop rest).2)
            | none =>
                if !h.postExists then
                  (1, .err { error_template with
                               message := "output file was not created" })
                else
                  (1 + (waitLoop rest).1, (waitLoop rest).2)

theorem waitLoop_cons_of_ok (x : HandleRun) (rest : List HandleRun)
    (h : waitLoop [x] = (1, .ok)) :
    waitLoop (x :: rest) = (1 + (waitLoop rest).1, (waitLoop rest).2) := by
  obtain ⟨proc, wr, pm, pe⟩ := x
  cases wr with
  | none => simp [waitLoop] at h
  | some output =>
      by_cases h0 : output.status ≠ 0
      · simp [waitLoop, h0] at h
      · cases homt : proc.old_modified_time with
        | some oldT =>
            cases hpm : pm with
            | none => simp [waitLoop, h0, homt, hpm] at h
            | some newT =>
                by_cases hle : newT ≤ oldT
                · simp [waitLoop, h0, homt, hpm, hle] at h
                · simp [waitLoop, h0, homt, hpm, hle]
        | none =>
            cases hpe : pe with
            | false => simp [waitLoop, h0, homt, hpe] at h
            | true => simp [waitLoop, h0, homt, hpe]

theorem waitLoop_cons_of_stop (x : HandleRun) (rest : List HandleRun)
    (n : Nat) (r : LoopResult) (h : waitLoop [x] = (n, r)) (hr : r ≠ .ok) :
    waitLoop (x :: rest) = (n, r) := by
  obtain ⟨proc, wr, pm, pe⟩ := x
  cases wr with
  | none =>
      simp only [waitLoop] at h ⊢
      exact h
  | some output =>
      by_cases h0 : output.status ≠ 0
      · simp only [waitLoop, if_pos h0] at h ⊢
        exact h
      · cases homt : proc.old_modified_time with
        | some oldT =>
            cases hpm : pm with
            | none =>
                simp only [waitLoop, if_neg h0, homt, hpm] at h ⊢
                exact h
            | some newT =>
                by_cases hle : newT ≤ oldT
                · simp only [waitLoop, if_neg h0, homt, hpm, if_pos hle] at h ⊢
                  exact h
                · simp only [waitLoop, if_neg h0, homt, hpm, if_neg hle] at h ⊢
                  injection h with h1 h2
                  rw [← h2] at hr
                  exact absurd rfl hr
        | none =>
            cases hpe : pe with
            | false =>
                simp only [waitLoop, if_neg h0, homt, hpe] at h ⊢
                exact h
            | true =>
                simp only [waitLoop, if_neg h0, homt, hpe] at h ⊢
                injection h with h1 h2
                rw [← h2] at hr
                exact absurd rfl hr

/-- C3 counterexample: a discovered file with one layer whose single step is
skipped as fresh still contributes 1 to the task total while zero jobs are
planned (and hence zero increments occur), so the total does not count only
jobs actually executed. -/
theorem progress_total_counts_skipped_step :
    task_count [("in/a.drawio", 1)] = 1 ∧
    (planJobs [] "a" "in/a.drawio" "out"
        (assemble_layer_cli_flag (.Incremental 1))
        (fun p => if p = "out/a-0.png" then some 10 else none) 5).length = 0 ∧
    waitLoop [] = (0, .ok) := by
  refine ⟨rfl, ?_, rfl⟩
  decide

/-- C3 amended: the task total counts every detected export step (it equals
the summed lengths of the resolved Incremental plans, including steps later
skipped as fresh); the planner emits at most one job per step (skipped steps
emit none); a handle whose wait succeeds and passes all checks increments the
progress counter exactly once, and the loop stops at the first failing
handle without counting the handles after it. -/
theorem progress_total_amended :
    (∀ files : List (String × Nat), (∀ f ∈ files, 1 ≤ f.2) →
       task_count files =
         (files.map
           (fun f => (assemble_layer_cli_flag (.Incremental f.2)).length)).sum) ∧
    (∀ (flags : List String) (file_name full_file_path out_dir : String)
       (steps : List String) (fs : String → Option Nat) (in_modified : Nat),
       (planJobs flags file_name full_file_path out_dir steps fs
           in_modified).length ≤ steps.length) ∧
    (∀ hs : List HandleRun, (∀ x ∈ hs, waitLoop [x] = (1, .ok)) →
       waitLoop hs = (hs.length, .ok)) ∧
    (∀ (x : HandleRun) (rest : List HandleRun) (n : Nat) (r : LoopResult),
       waitLoop [x] = (n, r) → r ≠ .ok → waitLoop (x :: rest) = (n, r)) := by
  refine ⟨?_, ?_, ?_, waitLoop_cons_of_stop⟩
  · intro files hge
    unfold task_count
    congr 1
    refine List.map_congr_left (fun f hf => ?_)
    exact ((assemble_incremental_eq_map f.2 (hge f hf)).symm ▸
      (by simp : ((List.range f.2).map specSelector).length = f.2)).symm
  · intro flags file_name full_file_path out_dir steps fs in_modified
    calc (planJobs flags file_name full_file_path out_dir steps fs
            in_modified).length
        ≤ steps.enum.length := List.length_filterMap_le _ _
      _ = steps.length := List.enum_length
  · intro hs
    induction hs with
    | nil => intro _; rfl
    | cons x rest ih =>
        intro hyp
        have hrest := ih (fun h hm => hyp h (List.mem_cons_of_mem x hm))
        rw [waitLoop_cons_of_ok x rest (hyp x (List.mem_cons_self x rest)),
          hrest]
        simp [Nat.add_comm]

/-- Witness for C3 amended: a two-layer file contributes 2 to the total, and
a single successfully-checked handle yields exactly one increment. -/
theorem progress_total_amended_witness :
    task_count [("in/a.drawio", 2)] =
      ([("in/a.drawio", 2)].map
        (fun f => (assemble_layer_cli_flag (.Incremental f.2)).length)).sum ∧
    waitLoop [{ proc := { output_path := "out/a-0.png",
                          input_path := "in/a.drawio",
                          old_modified_time := none },
                waitRes := some { status := 0, stdout := [], stderr := [] },
                postModified := none, postExists := true }] = (1, .ok) :=
  ⟨progress_total_amended.1 [("in/a.drawio", 2)] (by decide),
   progress_total_amended.2.2.1
     [{ proc := { output_path := "out/a-0.png", input_path := "in/a.drawio",
                  old_modified_time := none },
        waitRes := some { status := 0, stdout := [], stderr := [] },
        postModified := none, postExists := true }]
     (fun x hx => by
        cases List.mem_singleton.mp hx
        rfl)⟩

/-- Result of the draft-mode scale rewriting (`src/main.rs` lines 279-293):
the rewritten flag vector, the `whatever!` configuration error, or a Rust
panic from an out-of-bounds index assignment. -/
inductive DraftResult where
  | ok (flags : List String)
  | err (msg : String)
  | panic
deriving DecidableEq, Repr

/-- The scale-flag search loop of `src/main.rs` lines 280-286: the index of
the first element equal to `-s` or `--scale`. -/
def scale_flag_idx (drawio_flags : List String) : Option Nat :=
  drawio_flags.findIdx? (fun v => v = "-s" || v = "--scale")

/-- Draft-mode rewriting (`src/main.rs` lines 279-293): when draft mode is on
and a scale flag was found at `idx`, the guard `drawio_flags.len() < idx + 1`
raises "Scale flag does not have argument"; otherwise
`drawio_flags[idx + 1] = "1"` is executed, which panics when `idx + 1` is out
of bounds. -/
def applyDraft (draft : Bool) (drawio_flags : List String) : DraftResult :=
  if draft then
    match scale_flag_idx drawio_flags with
    | none => .ok drawio_flags
    | some idx =>
        if drawio_flags.length < idx + 1 then
          .err "Scale flag does not have argument"
        else if idx + 1 < drawio_flags.length then
          .ok (drawio_flags.set (idx + 1) "1")
        else .panic
  else .ok drawio_flags

/-- C9: a found scale-flag index is always `< len`, so the guard
`len < idx + 1` is never true and the "Scale flag does not have argument"
error is unreachable under draft mode; when the found scale flag is the last
token (no following argument), the rewrite panics instead. -/
theorem draft_scale_guard_unreachable :
    (∀ (flags : List String) (idx : Nat), scale_flag_idx flags = some idx →
       ¬(flags.length < idx + 1)) ∧
    (∀ (flags : List String) (msg : String), applyDraft true flags ≠ .err msg) ∧
    (∀ (flags : List String) (idx : Nat), scale_flag_idx flags = some idx →
       idx + 1 = flags.length → applyDraft true flags = .panic) := by
  have hidxlt : ∀ (flags : List String) (idx : Nat),
      scale_flag_idx flags = some idx → idx < flags.length := by
    intro flags idx h
    obtain ⟨hlt, -⟩ := List.findIdx?_eq_some_iff_getElem.mp h
    exact hlt
  have htrue : ∀ flags : List String, applyDraft true flags =
      match scale_flag_idx flags with
      | none => .ok flags
      | some idx =>
          if flags.length < idx + 1 then
            .err "Scale flag does not have argument"
          else if idx + 1 < flags.length then
            .ok (flags.set (idx + 1) "1")
          else .panic :=
    fun _ => rfl
  refine ⟨fun flags idx h => by have := hidxlt flags idx h; omega, ?_, ?_⟩
  · intro flags msg h
    rw [htrue] at h
    cases hidx : scale_flag_idx flags with
    | none => rw [hidx] at h; cases h
    | some idx =>
        rw [hidx] at h
        dsimp only at h
        have hlt := hidxlt flags idx hidx
        have hg1 : ¬(flags.length < idx + 1) := by omega
        rw [if_neg hg1] at h
        by_cases h2 : idx + 1 < flags.length
        · rw [if_pos h2] at h; cases h
        · rw [if_neg h2] at h; cases h
  · intro flags idx hidx hlast
    have hlt := hidxlt flags idx hidx
    have hg1 : ¬(flags.length < idx + 1) := by omega
    have hg2 : ¬(idx + 1 < flags.length) := by omega
    rw [htrue, hidx]
    dsimp only
    rw [if_neg hg1, if_neg hg2]

/-- Witness for C9: `"-x -s"` under draft mode panics, and does not produce
the scale-argument error. -/
theorem draft_scale_guard_unreachable_witness :
    applyDraft true ["-x", "-s"] = .panic ∧
    applyDraft true ["-x", "-s"] ≠ .err "Scale flag does not have argument" :=
  ⟨draft_scale_guard_unreachable.2.2 ["-x", "-s"] 1 (by decide) rfl,
   draft_scale_guard_unreachable.2.1 ["-x", "-s"]
     "Scale flag does not have argument"⟩

/-- A JSON document, as parsed by `serde_json`. -/
inductive Json where
  | null
  | bool (b : Bool)
  | num (n : Int)
  | str (s : String)
  | arr (elems : List Json)
  | obj (fields : List (String × Json))

/-- serde: deserialize a JSON value as a Rust `String`. -/
def parseJsonString : Json → Except String String
  | .str s => .ok s
  | _ => .error "expected string"

/-- serde: deserialize a JSON value as a `u8` (an integer in `0..=255`). -/
def parseU8 : Json → Except String Nat
  | .num n => if 0 ≤ n ∧ n ≤ 255 then .ok n.toNat else .error "expected u8"
  | _ => .error "expected u8"

/-- serde: deserialize a JSON array elementwise as a `Vec`. -/
def parseVec (f : Json → Except String α) : Json → Except String (List α)
  | .arr elems => elems.mapM f
  | _ => .error "expected array"

/-- `DrawioFileConfig` from `src/main.rs` lines 78-87 / `src/drawio.rs` lines
9-13: a file name and the per-step layer orders. -/
structure DrawioFileConfig where
  name : String
  order : List (List Nat)
deriving DecidableEq, Repr

/-- serde's field loop for `DrawioFileConfig` (which has no
`deny_unknown_fields` in either source file): known fields are deserialized
(duplicates are an error), unknown fields are skipped, and a missing required
field is an error. -/
def parseFileConfigFields :
    List (String × Json) → Option String → Option (List (List Nat)) →
    Except String DrawioFileConfig
  | [], some name, some order => .ok { name := name, order := order }
  | [], none, _ => .error "missing field name"
  | [], some _, none => .error "missing field order"
  | (k, v) :: rest, name?, order? =>
      if k = "name" then
        match name? with
        | some _ => .error "duplicate field name"
        | none =>
            match parseJsonString v with
            | .ok s => parseFileConfigFields rest (some s) order?
            | .error e => .error e
      else if k = "order" then
        match order? with
        | some _ => .error "duplicate field order"
        | none =>
            match parseVec (parseVec parseU8) v with
            | .ok o => parseFileConfigFields rest name? (some o)
            | .error e => .error e
      else parseFileConfigFields rest name? order?

/-- serde: deserialize a JSON value as a `DrawioFileConfig`. -/
def parseFileConfig : Json → Except String DrawioFileConfig
  | .obj fields => parseFileConfigFields fields none none
  | _ => .error "expected object"

/-- serde: deserialize a JSON value as `Option<Vec<DrawioFileConfig>>`
(`null` is `None`). -/
def parseOptFileConfigs (j : Json) : Except String (Option (List DrawioFileConfig)) :=
  match j with
  | .null => .ok none
  | _ =>
      match parseVec parseFileConfig j with
      | .ok v => .ok (some v)
      | .error e => .error e

namespace MainRs

/-- `DrawioConfig` from `src/main.rs` lines 90-94: the single optional field
is spelled `inidividual_configs`, and the struct has no
`deny_unknown_fields` attribute. -/
structure DrawioConfig where
  inidividual_configs : Option (List DrawioFileConfig)
deriving DecidableEq, Repr

/-- serde's field loop for the `src/main.rs` `DrawioConfig`: the only known
field is `inidividual_configs`; without `deny_unknown_fields`, every other
field is silently skipped. A missing `Option` field defaults to `None`. -/
def parseConfigFields :
    List (String × Json) → Option (Option (List DrawioFileConfig)) →
    Except String DrawioConfig
  | [], some v => .ok { inidividual_configs := v }
  | [], none => .ok { inidividual_configs := none }
  | (k, v) :: rest, acc =>
      if k = "inidividual_configs" then
        match acc with
        | some _ => .error "duplicate field inidividual_configs"
        | none =>
            match parseOptFileConfigs v with
            | .ok o => parseConfigFields rest (some o)
            | .error e => .error e
      else parseConfigFields rest acc

/-- `serde_json::from_reader::<DrawioConfig>` on an already-read document —
the parse `main` performs at `src/main.rs` line 297. -/
def parseDrawioConfig : Json → Except String DrawioConfig
  | .obj fields => parseConfigFields fields none
  | _ => .error "expected object"

end MainRs

namespace DrawioRs

/-- `DrawioConfig` from `src/drawio.rs` lines 15-21: field
`individual_configs`, with `#[serde(deny_unknown_fields)]`, whose comment
documents that unknown fields generate an error to detect typos. -/
structure DrawioConfig where
  individual_configs : Option (List DrawioFileConfig)
deriving DecidableEq, Repr

/-- serde's field loop for the `src/drawio.rs` `DrawioConfig`: with
`deny_unknown_fields`, any field other than `individual_configs` is an
error. -/
def parseConfigFields :
    List (String × Json) → Option (Option (List DrawioFileConfig)) →
    Except String DrawioConfig
  | [], some v => .ok { individual_configs := v }
  | [], none => .ok { individual_configs := none }
  | (k, v) :: rest, acc =>
      if k = "individual_configs" then
        match acc with
        | some _ => .error "duplicate field individual_configs"
        | none =>
            match parseOptFileConfigs v with
            | .ok o => parseConfigFields rest (some o)
            | .error e => .error e
      else .error ("unknown field " ++ k)

/-- Deserializing the `src/drawio.rs` `DrawioConfig` from a document. -/
def parseDrawioConfig : Json → Except String DrawioConfig
  | .obj fields => parseConfigFields fields none
  | _ => .error "expected object"

end DrawioRs

/-- C5 (code bug): the configuration parse `main` actually performs uses the
`src/main.rs` `DrawioConfig`, which has no `deny_unknown_fields` and
misspells its field `inidividual_configs`, so a document with an unknown
top-level field — even the correctly-spelled `individual_configs` — parses
successfully with the field silently ignored; the `src/drawio.rs`
`DrawioConfig`, whose comment documents rejecting unknown fields, errors on
the same documents. -/
theorem config_unknown_field_silently_ignored :
    MainRs.parseDrawioConfig (.obj [("individual_configs", .arr [])]) =
      .ok { inidividual_configs := none } ∧
    MainRs.parseDrawioConfig (.obj [("typo_field", .null)]) =
      .ok { inidividual_configs := none } ∧
    DrawioRs.parseDrawioConfig (.obj [("typo_field", .null)]) =
      .error ("unknown field " ++ "typo_field") ∧
    DrawioRs.parseDrawioConfig (.obj [("individual_configs", .arr [])]) =
      .ok { individual_configs := some [] } :=
  ⟨rfl, rfl, rfl, rfl⟩

end DrawioBuilder

